import Mathlib

/-!
Verification development for the CCTV packet-analyzer repository
(`phyton_analyzer/packet_capture_fixed.py` and `phyton_analyzer/packet_capture.py`).

The Python code is shallowly embedded as executable Lean definitions:

* Python `float` time/metric arithmetic is modelled by `ℚ` (the concrete values
  exercised here are exact in both representations);
* Python `int` fields are modelled by `ℤ` (unbounded, as in Python), counters by `ℕ`;
* Python strings are modelled as `List Char`;
* the character-scanning loop of `StreamingJSONParser.feed` (which mutates its
  index and buffer in place) is modelled by a tail-recursive function driven by a
  fuel counter that is always supplied in excess of the step bound of the loop, so the
  embedding is executable by kernel reduction;
* `json.loads` validation of an extracted record substring is not modelled: the
  extractor model returns the extracted substrings themselves, which is the part
  the analysed properties speak about.

Each definition follows the corresponding Python function line by line.
-/

/-- State of `StreamingJSONParser` persisted across `feed` calls:
`self.buffer`, `self.brace_count`, `self.in_string`, `self.escape_next`. -/
structure PState where
  buffer : List Char
  braceCount : Int
  inString : Bool
  escapeNext : Bool
deriving DecidableEq, Repr

/-- The state established by `StreamingJSONParser.__init__`. -/
def initPState : PState := ⟨[], 0, false, false⟩

/-- The character-scanning `while i < len(self.buffer)` loop of
`StreamingJSONParser.feed` (lines 167-199).  `i` and `startPos` are the
loop-local `i` and `start_pos`; `depth`, `inStr`, `esc` are the persisted
`self.brace_count`, `self.in_string`, `self.escape_next`; `acc` collects the
extracted record substrings (`buffer[start_pos:i+1]`).  On a completed record
the Python code sets `self.buffer = self.buffer[i+1:]` and `i = -1` (so the
next iteration rescans the rebased buffer from index 0), which is modelled by
the recursive call on `buf.drop (i+1)` with `i = 0`.  `fuel` only drives the
recursion; callers pass `2 * buf.length + 1`, which exceeds the step count of the loop, so the zero-fuel branch is never reached from `feed`. -/
def scanAux (fuel : Nat) (buf : List Char) (i startPos : Nat) (depth : Int)
    (inStr esc : Bool) (acc : List (List Char)) :
    List (List Char) × List Char × Int × Bool × Bool :=
  match fuel with
  | 0 => (acc, buf, depth, inStr, esc)
  | fuel + 1 =>
    if h : i < buf.length then
      let c := buf[i]
      if esc then
        scanAux fuel buf (i + 1) startPos depth inStr false acc
      else if c = '\\' then
        scanAux fuel buf (i + 1) startPos depth inStr true acc
      else if c = '"' then
        scanAux fuel buf (i + 1) startPos depth (!inStr) esc acc
      else if inStr then
        scanAux fuel buf (i + 1) startPos depth inStr esc acc
      else if c = '\x7b' then
        scanAux fuel buf (i + 1) (if depth = 0 then i else startPos) (depth + 1) inStr esc acc
      else if c = '\x7d' then
        if depth - 1 = 0 then
          scanAux fuel (buf.drop (i + 1)) 0 startPos 0 inStr esc
            (acc ++ [(buf.drop startPos).take (i + 1 - startPos)])
        else
          scanAux fuel buf (i + 1) startPos (depth - 1) inStr esc acc
      else
        scanAux fuel buf (i + 1) startPos depth inStr esc acc
    else (acc, buf, depth, inStr, esc)

/-- Runs the scanning loop of `feed` on the current parser state and repacks
the persisted fields. -/
def runScan (st : PState) : List (List Char) × PState :=
  let r := scanAux (2 * st.buffer.length + 1) st.buffer 0 0 st.braceCount st.inString st.escapeNext []
  (r.1, ⟨r.2.1, r.2.2.1, r.2.2.2.1, r.2.2.2.2⟩)

/-- Model of `StreamingJSONParser.feed` (lines 154-201): append the chunk to the
buffer; if the buffer now exceeds `max_buffer_size`, truncate it and reset the
scanner state; then run the scanning loop.  The truncation
`self.buffer[-self.max_buffer_size//2:]` parses as
`self.buffer[(-max_buffer_size)//2:]` — unary minus binds tighter than `//`
and Python floor division rounds toward negative infinity — so it keeps the
trailing `(max_buffer_size + 1) / 2` (that is, ceiling of half) characters;
for `max_buffer_size = 0` the slice start is `-0 = 0` and the whole buffer is
kept.  Returns the extracted record substrings and the new parser state. -/
def feed (maxBuf : Nat) (st : PState) (data : List Char) : List (List Char) × PState :=
  let buf0 := st.buffer ++ data
  let st1 : PState :=
    if maxBuf < buf0.length then
      ⟨if (maxBuf + 1) / 2 = 0 then buf0 else buf0.drop (buf0.length - (maxBuf + 1) / 2),
        0, false, false⟩
    else ⟨buf0, st.braceCount, st.inString, st.escapeNext⟩
  runScan st1

/-- A jitter sample as appended by `EnhancedPacketCapture._calculate_jitter`:
the dict with keys `timestamp`, `jitter`, `seq_num`. -/
structure JSample where
  timestamp : ℚ
  jitter : ℚ
  seq_num : ℤ
deriving DecidableEq, Repr

/-- A bitrate sample as appended by `EnhancedPacketCapture._calculate_bitrate`:
the dict with keys `timestamp`, `bytes`, `real_time`. -/
structure BSample where
  timestamp : ℚ
  bytes : ℤ
  real_time : ℚ
deriving DecidableEq, Repr

/-- Model of `EnhancedPacketCapture._calculate_jitter` (lines 579-608), acting on
the `jitter_samples` list of `self.statistics`. -/
def calc_jitter (samples : List JSample) (timestamp : ℚ) (seq_num : ℤ) : List JSample :=
  if 0 < samples.length then
    match samples.getLast? with
    | none => samples
    | some last_sample =>
      let time_diff := (timestamp - last_sample.timestamp) * 1000
      if 0 < time_diff ∧ time_diff < 1000 then
        let appended := samples ++ [⟨timestamp, time_diff, seq_num⟩]
        if 1000 < appended.length then appended.drop (appended.length - 500) else appended
      else samples
  else samples ++ [⟨timestamp, 0, seq_num⟩]

/-- Model of `EnhancedPacketCapture._calculate_bitrate` (lines 610-631), acting on
the `bitrate_samples` list of `self.statistics`; `now` is the `time.time()` value read at
the start of the call (`current_time`). -/
def calc_bitrate (samples : List BSample) (timestamp : ℚ) (length : ℤ) (now : ℚ) : List BSample :=
  let appended := samples ++ [⟨timestamp, length, now⟩]
  let cutoff_time := now - 30
  appended.filter (fun s => decide (cutoff_time ≤ s.real_time))

/-- The `for i in range(1, len(seq_numbers))` loop of
`EnhancedPacketCapture._calculate_packet_loss_metric` (lines 738-745): walks
the sorted sequence numbers pairwise, applying the wraparound
correction `diff = 65536 - seq_numbers[i-1] + seq_numbers[i]` when
`diff > 32768`, and accumulates `(gaps, total_expected)`. -/
def lossWalk (prev : ℤ) (rest : List ℤ) (gaps total_expected : ℤ) : ℤ × ℤ :=
  match rest with
  | [] => (gaps, total_expected)
  | x :: xs =>
    let diff := x - prev
    let diff := if 32768 < diff then 65536 - prev + x else diff
    lossWalk x xs (if 1 < diff then gaps + (diff - 1) else gaps) (total_expected + diff)

/-- The `seq_numbers` list of `_calculate_packet_loss_metric` (line 728):
the sequence numbers of the most recent 100 jitter samples
(the last 100 entries of the `jitter_samples` list). -/
def windowSeqs (jitter_samples : List JSample) : List ℤ :=
  (jitter_samples.drop (jitter_samples.length - 100)).map (fun s => s.seq_num)

/-- Lines 732-745 of `_calculate_packet_loss_metric`: `seq_numbers.sort()`
followed by the pairwise walk, yielding `(gaps, total_expected)`. -/
def lossGapsTotal (seq_numbers : List ℤ) : ℤ × ℤ :=
  match List.insertionSort (fun a b => a ≤ b) seq_numbers with
  | [] => (0, 0)
  | x :: xs => lossWalk x xs 0 0

/-- Model of `EnhancedPacketCapture._calculate_packet_loss_metric` (lines 721-754) as a
function of the `jitter_samples` list, returning the reported loss
percentage.  (The side assignment of `gaps` to the `lost_packets` counter is
the first component of `lossGapsTotal`.) -/
def calc_packet_loss_metric (jitter_samples : List JSample) : ℚ :=
  if jitter_samples.length < 10 then 0
  else
    let seq_numbers := windowSeqs jitter_samples
    if seq_numbers.length < 2 then 0
    else
      let gt := lossGapsTotal seq_numbers
      if 0 < gt.2 then min ((gt.1 : ℚ) / (gt.2 : ℚ) * 100) 100 else 0

/-- The list `self.video_ports` (line 233 of `packet_capture_fixed.py`, line 50 of
`packet_capture.py`; identical in both classes). -/
def video_ports : List ℤ := [554, 8000, 8080, 1935]

/-- The list `self.rtp_payload_types` (line 234; identical in both classes). -/
def rtp_payload_types : List ℤ := [96, 97, 98, 99, 26]

/-- Model of `EnhancedPacketCapture._is_video_packet` (lines 543-551 of
`packet_capture_fixed.py`): well-known media ports, or either port inside
the bounded RTP range 16384..32767. -/
def is_video_packet_enh (src_port dst_port : ℤ) : Bool :=
  decide (src_port ∈ video_ports ∨ dst_port ∈ video_ports ∨
    (16384 ≤ src_port ∧ src_port ≤ 32767) ∨ (16384 ≤ dst_port ∧ dst_port ≤ 32767))

/-- Model of `PacketCapture._is_video_packet` (lines 220-225 of `packet_capture.py`):
well-known media ports, or either port `>= 16384` with no upper bound. -/
def is_video_packet_orig (src_port dst_port : ℤ) : Bool :=
  decide (src_port ∈ video_ports ∨ dst_port ∈ video_ports ∨
    16384 ≤ src_port ∨ 16384 ≤ dst_port)

/-- The `self.statistics` dict of `EnhancedPacketCapture` restricted to the
fields the analysis path mutates (lines 215-225). -/
structure Stats where
  total_packets : ℕ
  video_packets : ℕ
  rtp_packets : ℕ
  lost_packets : ℤ
  jitter_samples : List JSample
  delay_samples : List ℚ
  bitrate_samples : List BSample
  start_time : Option ℚ
  errors : ℕ
deriving DecidableEq, Repr

/-- The value of `self.statistics` as initialized by `EnhancedPacketCapture.__init__`. -/
def initStats : Stats :=
  { total_packets := 0, video_packets := 0, rtp_packets := 0, lost_packets := 0,
    jitter_samples := [], delay_samples := [], bitrate_samples := [],
    start_time := none, errors := 0 }

/-- The RTP fields extracted by `_analyze_rtp_packet` (lines 556-559) from the
`rtp` layer: `rtp.seq`, `rtp.timestamp`, `rtp.p_type`. -/
structure RTPInfo where
  seq : ℤ
  timestamp : ℤ
  p_type : ℤ
deriving DecidableEq, Repr

/-- The fields of one dissected packet that `_process_packet` extracts and that
influence `self.statistics` (lines 479-499): frame number/time/length, UDP
ports, and the optional `rtp` layer.  (IP addresses and the raw JSON layer
structure only flow into the queued event, not into the statistics.) -/
structure Packet where
  frame_number : ℤ
  frame_time : ℚ
  frame_len : ℤ
  src_port : ℤ
  dst_port : ℤ
  rtp : Option RTPInfo
deriving DecidableEq, Repr

/-- Model of `EnhancedPacketCapture._analyze_rtp_packet` (lines 553-577) as a function
of the statistics: validate `rtp.seq` against 0..65535 and `rtp.p_type`
against 0..127 (silently returning on failure), then for a video payload type
update the jitter and bitrate sample lists. -/
def analyze_rtp_packet (stats : Stats) (rtp : RTPInfo) (timestamp : ℚ) (length : ℤ)
    (now : ℚ) : Stats :=
  if ¬(0 ≤ rtp.seq ∧ rtp.seq ≤ 65535) then stats
  else if ¬(0 ≤ rtp.p_type ∧ rtp.p_type ≤ 127) then stats
  else if rtp.p_type ∈ rtp_payload_types then
    { stats with
      jitter_samples := calc_jitter stats.jitter_samples timestamp rtp.seq,
      bitrate_samples := calc_bitrate stats.bitrate_samples timestamp length now }
  else stats

/-- Model of `EnhancedPacketCapture._process_packet` (lines 467-541) as a function of
the statistics: discard the packet when `frame_len <= 0 or frame_len > 65535`
(line 487, a silent `return`), otherwise count it, classify it, and on an
RTP-bearing video packet run `_analyze_rtp_packet`.  (The queue insertion at
lines 529-537 acts on `self.packet_queue`, modelled separately by
`enqueue_drop_oldest`.) -/
def process_packet (stats : Stats) (p : Packet) (now : ℚ) : Stats :=
  if p.frame_len ≤ 0 ∨ 65535 < p.frame_len then stats
  else
    let stats1 := { stats with total_packets := stats.total_packets + 1 }
    if is_video_packet_enh p.src_port p.dst_port then
      let stats2 := { stats1 with video_packets := stats1.video_packets + 1 }
      match p.rtp with
      | some rtp =>
        let stats3 := { stats2 with rtp_packets := stats2.rtp_packets + 1 }
        analyze_rtp_packet stats3 rtp p.frame_time p.frame_len now
      | none => stats2
    else stats1

/-- Sequential processing of a list of packets by the analysis thread
(`_analyze_packets` calls `_process_packet` on each extracted record in
order, lines 420-426). -/
def process_packets (stats : Stats) (ps : List Packet) (now : ℚ) : Stats :=
  ps.foldl (fun s p => process_packet s p now) stats

/-- The bounded-queue insertion of `_process_packet` (lines 529-537) on a
queue of capacity `maxsize`: `put_nowait`, and on `queue.Full` drop the
oldest element (`get_nowait`) before inserting the new one.  A Python
`queue.Queue` with `maxsize <= 0` is unbounded, hence the first branch. -/
def enqueue_drop_oldest {α : Type} (maxsize : ℕ) (q : List α) (x : α) : List α :=
  if maxsize = 0 then q ++ [x]
  else if q.length < maxsize then q ++ [x]
  else q.drop 1 ++ [x]

/-- The mutable fields of `EnhancedPacketCapture` relevant to the session
lifecycle: the `running` flag and the statistics. -/
structure CaptureState where
  running : Bool
  stats : Stats
deriving DecidableEq, Repr

/-- The effect of a successful `EnhancedPacketCapture.start_capture`
(lines 266-307) on `running` and `self.statistics`: it sets `running = True`
and assigns `time.time()` to the `start_time` statistics entry; no other statistics field is
touched.  (Process spawning, dependency checks and thread start are external
I/O and are not modelled.) -/
def start_capture_state (c : CaptureState) (now : ℚ) : CaptureState :=
  { running := true, stats := { c.stats with start_time := some now } }

/-- The effect of `EnhancedPacketCapture.stop_capture` (lines 363-393) on
`running` and `self.statistics`: it sets `running = False` and leaves every
statistics field unchanged.  (Process termination, thread join and temp-file
cleanup are external I/O and are not modelled.) -/
def stop_capture_state (c : CaptureState) : CaptureState :=
  { c with running := false }

/-- Four jitter samples whose sequence numbers are exactly 10, 11, 13, 14. -/
def window4 : List JSample := [⟨0, 0, 10⟩, ⟨0, 0, 11⟩, ⟨0, 0, 13⟩, ⟨0, 0, 14⟩]

/-- Ten jitter samples whose sequence numbers take exactly the values
10, 11, 13, 14 (the value 10 repeated to satisfy the 10-sample guard). -/
def window10 : List JSample :=
  [⟨0, 0, 10⟩, ⟨0, 0, 10⟩, ⟨0, 0, 10⟩, ⟨0, 0, 10⟩, ⟨0, 0, 10⟩, ⟨0, 0, 10⟩,
   ⟨0, 0, 10⟩, ⟨0, 0, 11⟩, ⟨0, 0, 13⟩, ⟨0, 0, 14⟩]

/-- Twelve jitter samples whose sequence numbers are the wrapped contiguous
run 65526, 65527, ..., 65535, 1, 2 (modulo-65536 arrival order). -/
def window12 : List JSample :=
  [⟨0, 0, 65526⟩, ⟨0, 0, 65527⟩, ⟨0, 0, 65528⟩, ⟨0, 0, 65529⟩, ⟨0, 0, 65530⟩,
   ⟨0, 0, 65531⟩, ⟨0, 0, 65532⟩, ⟨0, 0, 65533⟩, ⟨0, 0, 65534⟩, ⟨0, 0, 65535⟩,
   ⟨0, 0, 1⟩, ⟨0, 0, 2⟩]

/-- A 17-character chunk that opens a brace and never closes it: an opening
brace followed by sixteen filler characters. -/
def g17 : List Char := '\x7b' :: List.replicate 16 'a'

/-- The well-formed 7-character record `{"k":1}`. -/
def rec7 : List Char := "\x7b\"k\":1\x7d".toList

/-- An 8-character chunk `aaaaa{aa` whose unclosed brace survives into the
truncated buffer tail. -/
def g8 : List Char := "aaaaa\x7baa".toList

/-- A packet whose frame length 70000 lies outside the valid range 1..65535. -/
def badPacket : Packet := ⟨1, 0, 70000, 554, 0, none⟩

/-- Statistics accumulated by a prior capture session: five packets seen,
two errors, one jitter sample. -/
def priorStats : Stats :=
  { initStats with total_packets := 5, errors := 2, jitter_samples := [⟨0, 0, 3⟩] }

/-- The scanning loop never grows the buffer: its result buffer is a suffix of
(hence no longer than) the buffer it was started on. -/
theorem scanAux_buffer_length_le (fuel : Nat) :
    ∀ (buf : List Char) (i startPos : Nat) (depth : Int) (inStr esc : Bool)
      (acc : List (List Char)),
      (scanAux fuel buf i startPos depth inStr esc acc).2.1.length ≤ buf.length := by
  induction fuel with
  | zero => intro buf i sp d s e acc; simp [scanAux]
  | succ n ih =>
    intro buf i sp d s e acc
    rw [scanAux]
    split
    · dsimp only
      split_ifs <;> first
        | exact ih ..
        | exact le_trans (ih ..) (by simp)
    · simp

/-- The scanning pass of `feed` never grows the buffer. -/
theorem runScan_buffer_le (st : PState) : (runScan st).2.buffer.length ≤ st.buffer.length := by
  simp only [runScan]
  exact scanAux_buffer_length_le ..

/-- A packet failing the frame-length validation is silently dropped:
`_process_packet` returns before touching any statistics field. -/
theorem process_packet_invalid (stats : Stats) (p : Packet) (now : ℚ)
    (h : p.frame_len ≤ 0 ∨ 65535 < p.frame_len) : process_packet stats p now = stats := by
  rw [process_packet, if_pos h]

/-- Claim C1: feeding the single well-formed record `{}` (with default 1 MiB
buffer limit) split into the two chunks `{` and `}` must yield exactly one
record substring across the two `feed` calls.  The code yields none: each
`feed` call rescans the retained buffer from index 0 while keeping the
already-updated `brace_count`, so the `{` is counted twice and the closing
`}` only brings the depth back to 1.  Fed unsplit, the same record is
extracted, isolating the chunk split as the failure. -/
theorem C1_split_record_not_emitted :
    (feed 1048576 initPState ['\x7b']).1 = [] ∧
    (feed 1048576 (feed 1048576 initPState ['\x7b']).2 ['\x7d']).1 = [] ∧
    (feed 1048576 initPState ['\x7b', '\x7d']).1 = [['\x7b', '\x7d']] := by decide

/-- Claim C6 (counterexample): after a buffer-limit truncation (limit 8; the
second `feed` receives a buffer of length 9 > 8), the retained trailing half
can contain an unmatched `{`, and the subsequent well-formed record `{}` is
then NOT extracted — yet the same record fed to a fresh extractor is.  This
refutes the claim that subsequent well-formed records are always still
extracted correctly after truncation. -/
theorem C6_post_truncation_record_lost :
    8 < (((feed 8 initPState g8).2).buffer ++ ['a']).length ∧
    (feed 8 (feed 8 (feed 8 initPState g8).2 ['a']).2 ['\x7b', '\x7d']).1 = [] ∧
    (feed 8 initPState ['\x7b', '\x7d']).1 = [['\x7b', '\x7d']] := by decide

/-- Claim C6 (amended): (1) after any `feed` call the buffer holds at most
`maxBuf` characters (for any configured limit of at least 1 character, in
particular the default 1 MiB); (2) whenever appending the chunk makes the
buffer exceed the limit, the call behaves as a scan of the trailing
`(maxBuf + 1) / 2` characters — the ceiling of half the limit, as kept by the
Python slice with start `(-max_buffer_size)//2` — from the freshly reset
scanner state (depth 0, not in string, no escape pending); (3) in the scenario of the spec — 17 characters whose
outer brace never closes against a limit of 16, leaving a brace-free retained
tail — a subsequent well-formed record is still extracted correctly. -/
theorem C6_bounded_buffer :
    (∀ (maxBuf : ℕ) (st : PState) (data : List Char), 1 ≤ maxBuf →
        ((feed maxBuf st data).2).buffer.length ≤ maxBuf) ∧
    (∀ (maxBuf : ℕ) (st : PState) (data : List Char), 1 ≤ maxBuf →
        maxBuf < (st.buffer ++ data).length →
        feed maxBuf st data =
          runScan ⟨(st.buffer ++ data).drop ((st.buffer ++ data).length - (maxBuf + 1) / 2),
            0, false, false⟩) ∧
    ((feed 16 initPState g17).1 = [] ∧
     16 < (initPState.buffer ++ g17).length ∧
     (feed 16 (feed 16 initPState g17).2 rec7).1 = [rec7]) := by
  refine ⟨?_, ?_, by decide⟩
  · intro maxBuf st data h
    simp only [feed]
    refine le_trans (runScan_buffer_le _) ?_
    split_ifs with h1 h2
    · omega
    · dsimp only
      simp only [List.length_drop]
      omega
    · exact Nat.le_of_not_lt h1
  · intro maxBuf st data h h1
    simp only [feed]
    rw [if_pos h1, if_neg (by omega : ¬ (maxBuf + 1) / 2 = 0)]

/-- Claim C6 witness: the buffer bound and the truncate-and-reset equation
instantiated at concrete inputs; the limit 3 is odd, so the kept trailing
length is the ceiling `(3 + 1) / 2 = 2`. -/
theorem C6_bounded_buffer_witness :
    ((feed 4 initPState ['a', 'b']).2).buffer.length ≤ 4 ∧
    feed 3 initPState ['a', 'b', 'c', 'd'] =
      runScan ⟨(initPState.buffer ++ ['a', 'b', 'c', 'd']).drop
        ((initPState.buffer ++ ['a', 'b', 'c', 'd']).length - (3 + 1) / 2), 0, false, false⟩ :=
  ⟨C6_bounded_buffer.1 4 initPState ['a', 'b'] (by decide),
   C6_bounded_buffer.2.1 3 initPState ['a', 'b', 'c', 'd'] (by decide) (by decide)⟩

/-- Claim C2 (counterexample): after a bitrate update at wall-clock time 20,
the sample inserted at wall-clock time 0 is still retained, and its age
20 - 0 exceeds the claimed 10-second window: the code evicts at 30 seconds
(line 624, `cutoff_time = current_time - 30`), not at 10. -/
theorem C2_window_counterexample :
    (⟨0, 0, 0⟩ : BSample) ∈ calc_bitrate [⟨0, 0, 0⟩] 5 100 20 ∧ ¬ ((20 : ℚ) - 0 ≤ 10) := by
  constructor
  · simp only [calc_bitrate]
    refine List.mem_filter.2 ⟨by simp, ?_⟩
    rw [decide_eq_true_eq]
    norm_num
  · norm_num

/-- Claim C2 (amended): after every bitrate update, every retained sample has
wall-clock age at most the 30-second window actually used by the code, and
applying the age-based eviction a second time (with the same `now`) removes
nothing. -/
theorem C2_bitrate_window_30s :
    ∀ (samples : List BSample) (t : ℚ) (L : ℤ) (now : ℚ),
      (∀ s ∈ calc_bitrate samples t L now, now - s.real_time ≤ 30) ∧
      (calc_bitrate samples t L now).filter (fun s => decide (now - 30 ≤ s.real_time)) =
        calc_bitrate samples t L now := by
  intro samples t L now
  have hmem : ∀ s ∈ calc_bitrate samples t L now, now - 30 ≤ s.real_time := by
    intro s hs
    simp only [calc_bitrate] at hs
    have := (List.mem_filter.1 hs).2
    rwa [decide_eq_true_eq] at this
  constructor
  · intro s hs
    have := hmem s hs
    linarith
  · refine List.filter_eq_self.2 ?_
    intro s hs
    rw [decide_eq_true_eq]
    exact hmem s hs

/-- Claim C2 witness: the age bound and the eviction idempotence at a
concrete update. -/
theorem C2_bitrate_window_30s_witness :
    (20 : ℚ) - (⟨(0 : ℚ), (0 : ℤ), (0 : ℚ)⟩ : BSample).real_time ≤ 30 ∧
    (calc_bitrate [] 0 0 0).filter (fun s => decide ((0 : ℚ) - 30 ≤ s.real_time)) =
      calc_bitrate [] 0 0 0 :=
  ⟨(C2_bitrate_window_30s [⟨0, 0, 0⟩] 5 100 20).1 ⟨0, 0, 0⟩
      (by
        simp only [calc_bitrate]
        refine List.mem_filter.2 ⟨by simp, ?_⟩
        rw [decide_eq_true_eq]
        norm_num),
   (C2_bitrate_window_30s [] 0 0 0).2⟩

/-- Claim C3: on the wrapped contiguous run 65526..65535, 1, 2 the
wraparound branch (`diff = 65536 - prev + next`, which equals
`diff + 65536`) inflates the sorted jump from 2 to 65526 instead of
recognizing the wrapped values as contiguous: it accumulates
`total_expected = 131070` and `gaps = 131059` (a contiguous interpretation
would give at most 11 expected and 0 gaps), and the reported loss exceeds
99 percent — exactly the spurious near-100% the claim rules out. -/
theorem C3_wraparound_inflates_loss :
    lossGapsTotal (windowSeqs window12) = (131059, 131070) ∧
    99 < calc_packet_loss_metric window12 := by
  have h : lossGapsTotal (windowSeqs window12) = (131059, 131070) := by decide
  refine ⟨h, ?_⟩
  rw [calc_packet_loss_metric, if_neg (by decide : ¬ window12.length < 10),
    if_neg (by decide : ¬ (windowSeqs window12).length < 2), h]
  norm_num [lt_min_iff]

/-- Claim C4 (counterexample): with the jitter window holding exactly the four
samples 10, 11, 13, 14, `_calculate_packet_loss_metric` returns 0.0 — not the
claimed 25.0 — because of the `len(jitter_samples) < 10` guard at line 724. -/
theorem C4_four_samples_loss_zero :
    calc_packet_loss_metric window4 = 0 ∧ calc_packet_loss_metric window4 ≠ 25 := by
  have h : calc_packet_loss_metric window4 = 0 := by
    rw [calc_packet_loss_metric, if_pos (by decide : window4.length < 10)]
  exact ⟨h, by rw [h]; norm_num⟩

/-- Claim C4 (amended): when the window holds at least 10 samples whose
sequence numbers take exactly the values 10, 11, 13, 14, the sorted adjacent
diffs accumulate `total_expected = 4` and `gaps = 1` and the metric returns
25.0 percent; with exactly the four samples 10, 11, 13, 14 the function
returns 0.0 because fewer than 10 jitter samples are present. -/
theorem C4_loss_25_with_ten_samples :
    lossGapsTotal (windowSeqs window10) = (1, 4) ∧
    calc_packet_loss_metric window10 = 25 ∧
    calc_packet_loss_metric window4 = 0 := by
  have h : lossGapsTotal (windowSeqs window10) = (1, 4) := by decide
  refine ⟨h, ?_, ?_⟩
  · rw [calc_packet_loss_metric, if_neg (by decide : ¬ window10.length < 10),
      if_neg (by decide : ¬ (windowSeqs window10).length < 2), h]
    norm_num
  · rw [calc_packet_loss_metric, if_pos (by decide : window4.length < 10)]

/-- Claim C5: one jitter update appends the first sample with jitter 0 when no
prior sample exists; otherwise it appends the sample with
`jitter = (t - last.timestamp) * 1000` exactly when that value lies strictly
between 0 and 1000 and discards it otherwise; and whenever the resulting list
exceeds 1000 entries it is trimmed to the most recent 500. -/
theorem C5_jitter_update_step :
    ∀ (samples : List JSample) (t : ℚ) (s : ℤ),
      (samples = [] → calc_jitter samples t s = [⟨t, 0, s⟩]) ∧
      (∀ last_, samples.getLast? = some last_ →
        (0 < (t - last_.timestamp) * 1000 ∧ (t - last_.timestamp) * 1000 < 1000 →
          calc_jitter samples t s =
            if 1000 < samples.length + 1 then
              (samples ++ [(⟨t, (t - last_.timestamp) * 1000, s⟩ : JSample)]).drop
                (samples.length + 1 - 500)
            else samples ++ [(⟨t, (t - last_.timestamp) * 1000, s⟩ : JSample)]) ∧
        (¬(0 < (t - last_.timestamp) * 1000 ∧ (t - last_.timestamp) * 1000 < 1000) →
          calc_jitter samples t s = samples)) := by
  intro samples t s
  constructor
  · rintro rfl
    simp [calc_jitter]
  · intro last_ hlast
    have hne : samples ≠ [] := by
      rintro rfl
      simp at hlast
    have hpos : 0 < samples.length := List.length_pos.2 hne
    constructor
    · intro hd
      rw [calc_jitter, if_pos hpos, hlast]
      dsimp only
      rw [if_pos hd]
      simp [List.length_append]
    · intro hd
      rw [calc_jitter, if_pos hpos, hlast]
      dsimp only
      rw [if_neg hd]

/-- Claim C5 witness: the first-sample case, an accepted update (delta 500 ms)
and a rejected update (delta 2000 ms) at concrete inputs. -/
theorem C5_jitter_update_step_witness :
    calc_jitter [] 0 0 = [⟨0, 0, 0⟩] ∧
    calc_jitter [⟨0, 0, 0⟩] (1/2) 7 =
      (if 1000 < [(⟨0, 0, 0⟩ : JSample)].length + 1 then
        ([(⟨0, 0, 0⟩ : JSample)] ++ [(⟨1/2, (1/2 - (0:ℚ)) * 1000, 7⟩ : JSample)]).drop
          ([(⟨0, 0, 0⟩ : JSample)].length + 1 - 500)
      else [(⟨0, 0, 0⟩ : JSample)] ++ [(⟨1/2, (1/2 - (0:ℚ)) * 1000, 7⟩ : JSample)]) ∧
    calc_jitter [⟨0, 0, 0⟩] 2 7 = [⟨0, 0, 0⟩] :=
  ⟨(C5_jitter_update_step [] 0 0).1 rfl,
   (((C5_jitter_update_step [⟨0, 0, 0⟩] (1/2) 7).2 ⟨0, 0, 0⟩ rfl).1 (by norm_num)),
   (((C5_jitter_update_step [⟨0, 0, 0⟩] 2 7).2 ⟨0, 0, 0⟩ rfl).2 (by norm_num))⟩

/-- Claim C7 (counterexample): processing a packet whose frame length 70000
lies outside 1..65535 leaves the statistics entirely unchanged — the error
counter stays at 0, contradicting the claim that it is incremented. -/
theorem C7_no_error_increment :
    process_packet initStats badPacket 0 = initStats ∧
    (process_packet initStats badPacket 0).errors = 0 := by
  have h : process_packet initStats badPacket 0 = initStats :=
    process_packet_invalid _ _ _ (by norm_num [badPacket])
  exact ⟨h, by rw [h]; rfl⟩

/-- Claim C7 (amended): a packet carrying a field outside its valid range
(frame length outside 1..65535; RTP sequence number outside 0..65535; RTP
payload type outside 0..127) is discarded with the statistics — including the
error counter — entirely unchanged (the counter counts only exceptions), and
processing of subsequent packets continues unaffected. -/
theorem C7_invalid_fields_discarded_silently :
    (∀ (stats : Stats) (p : Packet) (now : ℚ),
        p.frame_len ≤ 0 ∨ 65535 < p.frame_len → process_packet stats p now = stats) ∧
    (∀ (stats : Stats) (rtp : RTPInfo) (t : ℚ) (L : ℤ) (now : ℚ),
        ¬(0 ≤ rtp.seq ∧ rtp.seq ≤ 65535) → analyze_rtp_packet stats rtp t L now = stats) ∧
    (∀ (stats : Stats) (rtp : RTPInfo) (t : ℚ) (L : ℤ) (now : ℚ),
        ¬(0 ≤ rtp.p_type ∧ rtp.p_type ≤ 127) → analyze_rtp_packet stats rtp t L now = stats) ∧
    (∀ (stats : Stats) (now : ℚ) (bad : Packet) (rest : List Packet),
        bad.frame_len ≤ 0 ∨ 65535 < bad.frame_len →
        process_packets stats (bad :: rest) now = process_packets stats rest now) := by
  refine ⟨fun stats p now h => process_packet_invalid stats p now h, ?_, ?_, ?_⟩
  · intro stats rtp t L now h
    rw [analyze_rtp_packet, if_pos h]
  · intro stats rtp t L now h
    by_cases hs : ¬(0 ≤ rtp.seq ∧ rtp.seq ≤ 65535)
    · rw [analyze_rtp_packet, if_pos hs]
    · rw [analyze_rtp_packet, if_neg hs, if_pos h]
  · intro stats now bad rest h
    simp only [process_packets, List.foldl_cons, process_packet_invalid stats bad now h]

/-- Claim C7 witness: each silent-discard case instantiated at a concrete
out-of-range packet. -/
theorem C7_invalid_fields_discarded_silently_witness :
    process_packet initStats ⟨1, 0, 0, 554, 0, none⟩ 0 = initStats ∧
    analyze_rtp_packet initStats ⟨70000, 0, 96⟩ 0 100 0 = initStats ∧
    analyze_rtp_packet initStats ⟨5, 0, 200⟩ 0 100 0 = initStats ∧
    process_packets initStats [⟨1, 0, 0, 554, 0, none⟩] 0 = process_packets initStats [] 0 :=
  ⟨C7_invalid_fields_discarded_silently.1 initStats ⟨1, 0, 0, 554, 0, none⟩ 0 (by norm_num),
   C7_invalid_fields_discarded_silently.2.1 initStats ⟨70000, 0, 96⟩ 0 100 0 (by norm_num),
   C7_invalid_fields_discarded_silently.2.2.1 initStats ⟨5, 0, 200⟩ 0 100 0 (by norm_num),
   C7_invalid_fields_discarded_silently.2.2.2 initStats 0 ⟨1, 0, 0, 554, 0, none⟩ [] (by norm_num)⟩

/-- Claim C8 (counterexample): stopping and restarting a capture session keeps
the statistics of the prior session: after stop/start the total-packet counter is
still 5 and the old jitter sample is still present, whereas the creation
state has counter 0 — the statistics of the new session do include data
accumulated by the prior session. -/
theorem C8_restart_keeps_counters :
    (start_capture_state (stop_capture_state ⟨true, priorStats⟩) 100).stats.total_packets = 5 ∧
    (start_capture_state (stop_capture_state ⟨true, priorStats⟩) 100).stats.jitter_samples =
      [⟨0, 0, 3⟩] ∧
    initStats.total_packets = 0 :=
  ⟨rfl, rfl, rfl⟩

/-- Claim C8 (amended): stopping and restarting a capture session does NOT
re-initialize the statistics: every field except `start_time` is preserved
verbatim (only `start_time` is overwritten with the start instant of the new session, and the running flag is raised). -/
theorem C8_restart_preserves_statistics :
    ∀ (c : CaptureState) (now : ℚ),
      (start_capture_state (stop_capture_state c) now).stats =
        { c.stats with start_time := some now } ∧
      (start_capture_state (stop_capture_state c) now).running = true :=
  fun _ _ => ⟨rfl, rfl⟩

/-- Claim C9: a bounded queue of capacity 3, after enqueueing 0, 1, 2, 3 in
order with no dequeues, holds exactly the newest three elements 1, 2, 3 in
order; in general an enqueue at capacity drops the oldest element before
inserting the new one and leaves the queue at capacity (the operation is a
total function — it never blocks the producer). -/
theorem C9_drop_oldest_queue :
    enqueue_drop_oldest 3 (enqueue_drop_oldest 3 (enqueue_drop_oldest 3
        (enqueue_drop_oldest 3 ([] : List ℕ) 0) 1) 2) 3 = [1, 2, 3] ∧
    ∀ (q : List ℕ) (x : ℕ), q.length = 3 →
      enqueue_drop_oldest 3 q x = q.drop 1 ++ [x] ∧ (enqueue_drop_oldest 3 q x).length = 3 := by
  refine ⟨by decide, ?_⟩
  intro q x h
  have he : enqueue_drop_oldest 3 q x = q.drop 1 ++ [x] := by
    rw [enqueue_drop_oldest, if_neg (by decide : ¬(3 : ℕ) = 0), if_neg (by omega : ¬ q.length < 3)]
  refine ⟨he, ?_⟩
  rw [he]
  simp only [List.length_append, List.length_drop, List.length_singleton]
  omega

/-- Claim C9 witness: the drop-oldest step instantiated at a concrete
full queue. -/
theorem C9_drop_oldest_queue_witness :
    enqueue_drop_oldest 3 [7, 8, 9] 10 = [7, 8, 9].drop 1 ++ [10] ∧
    (enqueue_drop_oldest 3 [(7 : ℕ), 8, 9] 10).length = 3 :=
  C9_drop_oldest_queue.2 [7, 8, 9] 10 rfl

/-- Claim C10 (counterexample): at source port 40000 (above 32767) the
original classifier reports media (its RTP range has no upper bound) while
the enhanced classifier does not — the two classifiers do not return the
same verdict on ports above 32767. -/
theorem C10_classifiers_disagree_high_port :
    is_video_packet_orig 40000 0 = true ∧ is_video_packet_enh 40000 0 = false := by decide

/-- Claim C10 (amended): the enhanced classifier refines the original one —
every packet the enhanced classifier marks as media, the original also marks
as media — and the two agree whenever both ports are at most 32767; they can
disagree only when a port exceeds 32767, where the unbounded RTP range of the original always fires. -/
theorem C10_classifier_refinement :
    ∀ (s d : ℤ),
      (is_video_packet_enh s d = true → is_video_packet_orig s d = true) ∧
      (s ≤ 32767 → d ≤ 32767 → is_video_packet_orig s d = is_video_packet_enh s d) := by
  intro s d
  constructor
  · simp only [is_video_packet_enh, is_video_packet_orig, decide_eq_true_eq, video_ports,
      List.mem_cons, List.not_mem_nil, or_false]
    omega
  · intro hs hd
    simp only [is_video_packet_enh, is_video_packet_orig]
    refine decide_eq_decide.mpr ?_
    simp only [video_ports, List.mem_cons, List.not_mem_nil, or_false]
    omega

/-- Claim C10 witness: the refinement direction at a port in the shared RTP
range and the agreement at a well-known media port. -/
theorem C10_classifier_refinement_witness :
    is_video_packet_orig 20000 0 = true ∧
    is_video_packet_orig 554 1 = is_video_packet_enh 554 1 :=
  ⟨(C10_classifier_refinement 20000 0).1 (by decide),
   (C10_classifier_refinement 554 1).2 (by decide) (by decide)⟩
